import Mathlib

/-!
Shallow embedding of `src/log_windows.go` from tonylambiris/go-logging:
the Windows color log backend.  Pure Go values become Lean values; the
external world (the platform SetConsoleTextAttribute call, the standard
library logger's write outcome, the record formatter) is supplied as
explicit data, and every externally visible call made by `Log` is recorded
in an event trace.
-/

namespace Logging

/-- Go `type word uint16`.  All attribute constants in the source are below
`2^16`, and the code only stores and bitwise-ORs them (no arithmetic), so no
overflow reduction is ever needed. -/
abbrev Word := Nat

/-- Go `type color int` is declared but unused by the code under study. -/
abbrev Color := Int

def fgBlack : Word := 0x0000

def fgBlue : Word := 0x0001

def fgGreen : Word := 0x0002

def fgCyan : Word := 0x0003

def fgRed : Word := 0x0004

def fgMagenta : Word := 0x0005

def fgYellow : Word := 0x0006

def fgWhite : Word := 0x0007

def fgIntensity : Word := 0x0008

def fgMask : Word := 0x000F

/-- Severity levels are Go `Level` integers, used in `log_windows.go` only as
indices into the color tables. -/
abbrev Level := Nat

/-- Modelled from the spec: the `Level` constants are declared elsewhere in
the repository (its `level.go` is not under `src/`); the spec says they are
implementation-defined integers used only as table indices, one per severity.
We use the framework's consecutive values `CRITICAL = 0 .. DEBUG = 5`. -/
def CRITICAL : Level := 0

def ERROR : Level := 1

def WARNING : Level := 2

def NOTICE : Level := 3

def INFO : Level := 4

def DEBUG : Level := 5

/-- Modelled from the spec: the six severity levels the framework defines
(`level.go` is not under `src/`). -/
def definedLevels : List Level := [DEBUG, NOTICE, WARNING, ERROR, CRITICAL, INFO]

/-- Go `colors = []word{INFO: fgWhite, CRITICAL: fgMagenta, ERROR: fgRed,
WARNING: fgYellow, NOTICE: fgGreen, DEBUG: fgCyan}`: a keyed slice literal
whose length is the largest key plus one, laid out here by index
(`CRITICAL = 0 .. DEBUG = 5`). -/
def colors : List Word := [fgMagenta, fgRed, fgYellow, fgGreen, fgWhite, fgCyan]

/-- Go `boldcolors`: the same keyed slice literal with each entry ORed with
`fgIntensity`. -/
def boldcolors : List Word :=
  [Nat.lor fgMagenta fgIntensity, Nat.lor fgRed fgIntensity,
   Nat.lor fgYellow fgIntensity, Nat.lor fgGreen fgIntensity,
   Nat.lor fgWhite fgIntensity, Nat.lor fgCyan fgIntensity]

/-- Go `error` values as they occur in this file: `syscall.EINVAL` or some
other non-nil error; `Option GoError` with `none` for Go's `nil`. -/
inductive GoError where
  | EINVAL : GoError
  | other : String → GoError
  deriving DecidableEq, Repr

/-- The raw outcome of the Windows `SetConsoleTextAttribute` call made via
`setConsoleTextAttributeProc.Call`: the two `uintptr` results and the
accompanying error value. -/
structure SyscallResult where
  r1 : Nat
  r2 : Nat
  err : Option GoError
  deriving DecidableEq, Repr

/-- Go `checkError(r1, r2 uintptr, err error) error`: non-zero `r1` means
success (`nil`); otherwise the supplied error, defaulting to
`syscall.EINVAL` when the platform supplied none. -/
def checkError (r1 : Nat) (r2 : Nat) (err : Option GoError) : Option GoError :=
  if r1 ≠ 0 then
    none
  else
    match err with
    | some e => some e
    | none => some GoError.EINVAL

/-- Go `setConsoleTextAttribute(f file, attribute word) error`: performs the
platform call (its outcome is the `SyscallResult` argument here) and filters
it through `checkError`. -/
def setConsoleTextAttribute (res : SyscallResult) : Option GoError :=
  checkError res.r1 res.r2 res.err

/-- Go `*Record` as `Log` uses it: only its `Formatted(calldepth int) string`
method is consumed (the external formatter of the spec). -/
structure Record where
  Formatted : Nat → String

/-- The `io.Writer` handed to `NewLogBackend`: its write behaviour (consumed
through the standard `log.Logger`) and, when its dynamic type implements the
`file` interface (`Fd() uintptr`), that file-descriptor handle. -/
structure Writer where
  write : Nat → String → Option GoError
  fd : Option Nat

/-- Go's standard `*log.Logger`, an external collaborator: per the spec an
opaque sink whose `Output(calldepth int, s string) error` delivers a line and
reports success or failure. -/
structure Logger where
  Output : Nat → String → Option GoError

/-- Go `log.New(out, prefix, flag)`: builds the opaque sink over `out` (the
header options do not matter to this component). -/
def logNew (out : Writer) (pre : String) (flag : Int) : Logger :=
  { Output := fun calldepth s => out.write calldepth s }

/-- Go `type LogBackend struct { Logger *log.Logger; Color bool; f file }`.
`f` is `some` exactly when the underlying writer implements the `file`
interface. -/
structure LogBackend where
  Logger : Logger
  Color : Bool
  f : Option Nat

/-- Go `NewLogBackend(out io.Writer, prefix string, flag int) *LogBackend`:
builds the backend over `log.New` and probes `out.(file)` once, caching the
handle in `f` (the struct literal leaves `Color` and `f` at their zero
values first). -/
def NewLogBackend (out : Writer) (pre : String) (flag : Int) : LogBackend :=
  { Logger := logNew out pre flag, Color := false, f := out.fd }

/-- One externally visible call made by `Log`: a `setConsoleTextAttribute`
call on a file handle with an attribute, or a `Logger.Output` write. -/
inductive Event where
  | setAttr : Nat → Word → Event
  | output : Nat → String → Event
  deriving DecidableEq, Repr

/-- Whether an event is a `Logger.Output` write. -/
def Event.isOutput : Event → Bool
  | .output _ _ => true
  | .setAttr _ _ => false

/-- The platform's response to each `SetConsoleTextAttribute` call `Log` may
make, keyed by file descriptor and attribute. -/
structure Env where
  attrCall : Nat → Word → SyscallResult

/-- Go `func (b *LogBackend) Log(level Level, calldepth int, rec *Record)
error`.  The result is `none` on an index-out-of-range panic at
`colors[level]`; otherwise the backend as the method leaves it (the method
assigns none of `b`'s fields), the trace of external calls in program order,
and the returned error.  Both `setConsoleTextAttribute` results are computed
and discarded, exactly as the source discards them. -/
def LogBackend.Log (b : LogBackend) (env : Env) (level : Level) (calldepth : Nat)
    (rec : Record) : Option (LogBackend × List Event × Option GoError) :=
  match b.Color, b.f with
  | true, some fd =>
    match colors[level]? with
    | none => none
    | some attr =>
      let _set1 := setConsoleTextAttribute (env.attrCall fd attr)
      let text := rec.Formatted (calldepth + 1)
      let err := b.Logger.Output (calldepth + 2) text
      let _set2 := setConsoleTextAttribute (env.attrCall fd fgWhite)
      some (b, [Event.setAttr fd attr, Event.output (calldepth + 2) text,
                Event.setAttr fd fgWhite], err)
  | _, _ =>
    some (b, [Event.output (calldepth + 2) (rec.Formatted (calldepth + 1))],
          b.Logger.Output (calldepth + 2) (rec.Formatted (calldepth + 1)))

/-- Concrete sink that always succeeds, for concrete evaluations. -/
def sampleLogger : Logger := { Output := fun _ _ => none }

/-- Concrete record whose formatter distinguishes call depths 0 and 1. -/
def sampleRecord : Record := { Formatted := fun d => if d = 0 then "a" else "b" }

/-- Concrete platform environment in which every attribute call succeeds. -/
def sampleEnv : Env := { attrCall := fun _ _ => ⟨1, 0, none⟩ }

/-- Concrete backend with coloring enabled and a cached file handle. -/
def sampleColorBackend : LogBackend := { Logger := sampleLogger, Color := true, f := some 3 }

/-- Concrete backend with coloring disabled. -/
def samplePlainBackend : LogBackend := { Logger := sampleLogger, Color := false, f := some 3 }

/-- Concrete writer exposing a file-descriptor handle. -/
def sampleWriter : Writer := { write := fun _ _ => none, fd := some 3 }

/-- Concrete backend whose sink always fails with the same write error. -/
def sampleFailBackend : LogBackend :=
  { Logger := ⟨fun _ _ => some (GoError.other "pipe closed")⟩, Color := true, f := some 3 }

/-- Concrete platform environment that rejects every attribute call. -/
def sampleFailEnv : Env := { attrCall := fun _ _ => ⟨0, 0, none⟩ }

/-- Helper: `Log` hands back the backend it was called on, unchanged. -/
theorem LogBackend.log_state (b : LogBackend) (env : Env) (level : Level)
    (calldepth : Nat) (rec : Record) (out : LogBackend × List Event × Option GoError)
    (h : b.Log env level calldepth rec = some out) : out.1 = b := by
  unfold LogBackend.Log at h
  split at h
  · split at h
    · exact Option.noConfusion h
    · obtain rfl := (Option.some.inj h).symm
      rfl
  · obtain rfl := (Option.some.inj h).symm
    rfl

/-- Helper: `Log`'s result is exactly the sink's write result. -/
theorem LogBackend.log_result (b : LogBackend) (env : Env) (level : Level)
    (calldepth : Nat) (rec : Record) (out : LogBackend × List Event × Option GoError)
    (h : b.Log env level calldepth rec = some out) :
    out.2.2 = b.Logger.Output (calldepth + 2) (rec.Formatted (calldepth + 1)) := by
  unfold LogBackend.Log at h
  split at h
  · split at h
    · exact Option.noConfusion h
    · obtain rfl := (Option.some.inj h).symm
      rfl
  · obtain rfl := (Option.some.inj h).symm
    rfl

/-- C1: with `Color = true` and a cached file handle, `Log` makes exactly one
`setConsoleTextAttribute` call with the level's mapped attribute before the
write and exactly one restoring `fgWhite` after the write, on every exit path
(the sink's write result is arbitrary, error included). -/
theorem log_color_brackets_write (b : LogBackend) (env : Env) (level : Level)
    (calldepth : Nat) (rec : Record) (fd : Nat) (attr : Word)
    (hc : b.Color = true) (hf : b.f = some fd) (ha : colors[level]? = some attr) :
    b.Log env level calldepth rec =
      some (b, [Event.setAttr fd attr,
                Event.output (calldepth + 2) (rec.Formatted (calldepth + 1)),
                Event.setAttr fd fgWhite],
            b.Logger.Output (calldepth + 2) (rec.Formatted (calldepth + 1))) := by
  unfold LogBackend.Log
  rw [hc, hf, ha]

/-- C1 witness: a concrete colored `Log` call at level `ERROR`. -/
theorem log_color_brackets_write_witness :
    sampleColorBackend.Color = true ∧ sampleColorBackend.f = some 3 ∧
    colors[ERROR]? = some fgRed ∧
    sampleColorBackend.Log sampleEnv ERROR 0 sampleRecord =
      some (sampleColorBackend,
            [Event.setAttr 3 fgRed, Event.output 2 "b", Event.setAttr 3 fgWhite],
            none) :=
  ⟨rfl, rfl, by decide,
    log_color_brackets_write sampleColorBackend sampleEnv ERROR 0 sampleRecord 3 fgRed
      rfl rfl (by decide)⟩

/-- C2: the value `Log` returns is exactly the sink write's result
(`Logger.Output` at depth `calldepth + 2` on the rendered text), for every
platform environment: a write error is propagated verbatim, and the
attribute-call outcomes (arbitrary in `env`) never reach the caller. -/
theorem log_propagates_write_result (b : LogBackend) (env : Env) (level : Level)
    (calldepth : Nat) (rec : Record) (out : LogBackend × List Event × Option GoError)
    (h : b.Log env level calldepth rec = some out) :
    out.2.2 = b.Logger.Output (calldepth + 2) (rec.Formatted (calldepth + 1)) :=
  LogBackend.log_result b env level calldepth rec out h

/-- C2 witness: a concrete colored `Log` call against a failing sink returns
the sink's error even though the platform environment rejects every
attribute call. -/
theorem log_propagates_write_result_witness :
    sampleFailBackend.Log sampleFailEnv ERROR 0 sampleRecord =
      some (sampleFailBackend,
            [Event.setAttr 3 fgRed, Event.output 2 "b", Event.setAttr 3 fgWhite],
            some (GoError.other "pipe closed")) ∧
    (sampleFailBackend, ([Event.setAttr 3 fgRed, Event.output 2 "b",
        Event.setAttr 3 fgWhite] : List Event),
      (some (GoError.other "pipe closed") : Option GoError)).2.2 =
      sampleFailBackend.Logger.Output 2 (sampleRecord.Formatted 1) :=
  ⟨rfl, log_propagates_write_result sampleFailBackend sampleFailEnv ERROR 0 sampleRecord
    (sampleFailBackend, [Event.setAttr 3 fgRed, Event.output 2 "b", Event.setAttr 3 fgWhite],
      some (GoError.other "pipe closed")) rfl⟩

/-- C3: with `Color = false` or no cached file handle, `Log` makes a single
`Logger.Output` call on the rendered text, returns its result unchanged, and
makes zero `setConsoleTextAttribute` calls. -/
theorem log_plain_no_attr_calls (b : LogBackend) (env : Env) (level : Level)
    (calldepth : Nat) (rec : Record)
    (h : b.Color = false ∨ b.f = none) :
    b.Log env level calldepth rec =
      some (b, [Event.output (calldepth + 2) (rec.Formatted (calldepth + 1))],
            b.Logger.Output (calldepth + 2) (rec.Formatted (calldepth + 1))) ∧
    ∀ out, b.Log env level calldepth rec = some out →
      out.2.1.filter (fun e => !e.isOutput) = [] := by
  obtain ⟨lg, c, f⟩ := b
  cases c <;> cases f <;>
    simp_all [LogBackend.Log, Event.isOutput]

/-- C3 witness: a concrete non-color `Log` call. -/
theorem log_plain_no_attr_calls_witness :
    samplePlainBackend.Color = false ∧
    (samplePlainBackend.Log sampleEnv ERROR 0 sampleRecord =
      some (samplePlainBackend, [Event.output 2 "b"], none) ∧
    ∀ out, samplePlainBackend.Log sampleEnv ERROR 0 sampleRecord = some out →
      out.2.1.filter (fun e => !e.isOutput) = []) :=
  ⟨rfl, log_plain_no_attr_calls samplePlainBackend sampleEnv ERROR 0 sampleRecord
    (Or.inl rfl)⟩

/-- C10: `Log` never mutates the backend's persistent state: whenever it
returns, the backend it hands back has the same `Logger`, `Color` and `f`
fields it was called with. -/
theorem log_preserves_backend (b : LogBackend) (env : Env) (level : Level)
    (calldepth : Nat) (rec : Record) (out : LogBackend × List Event × Option GoError)
    (h : b.Log env level calldepth rec = some out) :
    out.1.Logger = b.Logger ∧ out.1.Color = b.Color ∧ out.1.f = b.f := by
  have hb := LogBackend.log_state b env level calldepth rec out h
  rw [hb]
  exact ⟨rfl, rfl, rfl⟩

/-- C10 witness: the state-preservation fact at a concrete colored call. -/
theorem log_preserves_backend_witness :
    sampleColorBackend.Log sampleEnv DEBUG 0 sampleRecord =
      some (sampleColorBackend,
            [Event.setAttr 3 fgCyan, Event.output 2 "b", Event.setAttr 3 fgWhite],
            none) ∧
    ((sampleColorBackend, ([Event.setAttr 3 fgCyan, Event.output 2 "b",
        Event.setAttr 3 fgWhite] : List Event), (none : Option GoError)).1.Logger =
          sampleColorBackend.Logger ∧
      (sampleColorBackend, ([Event.setAttr 3 fgCyan, Event.output 2 "b",
        Event.setAttr 3 fgWhite] : List Event), (none : Option GoError)).1.Color =
          sampleColorBackend.Color ∧
      (sampleColorBackend, ([Event.setAttr 3 fgCyan, Event.output 2 "b",
        Event.setAttr 3 fgWhite] : List Event), (none : Option GoError)).1.f =
          sampleColorBackend.f) :=
  ⟨rfl, log_preserves_backend sampleColorBackend sampleEnv DEBUG 0 sampleRecord _ rfl⟩

/-- C7: the `ColorableSink` capability is probed exactly once, in
`NewLogBackend`, as the file-descriptor handle the writer exposes (none when
it exposes none), and no `Log` call ever changes the cached `f` field. -/
theorem capability_probed_once (out : Writer) (pre : String) (flag : Int)
    (b : LogBackend) (env : Env) (level : Level) (calldepth : Nat) (rec : Record)
    (res : LogBackend × List Event × Option GoError)
    (h : b.Log env level calldepth rec = some res) :
    (NewLogBackend out pre flag).f = out.fd ∧ res.1.f = b.f := by
  refine ⟨rfl, ?_⟩
  rw [LogBackend.log_state b env level calldepth rec res h]

/-- C7 witness: construction caches the sample writer's handle, and a
concrete `Log` call leaves `f` unchanged. -/
theorem capability_probed_once_witness :
    (NewLogBackend sampleWriter "" 0).f = sampleWriter.fd ∧
    (sampleColorBackend, ([Event.setAttr 3 fgWhite, Event.output 2 "b",
        Event.setAttr 3 fgWhite] : List Event), (none : Option GoError)).1.f =
      sampleColorBackend.f :=
  capability_probed_once sampleWriter "" 0 sampleColorBackend sampleEnv INFO 0
    sampleRecord _ rfl

/-- C4: for each of the six framework severity levels, both color tables
have a defined, non-zero entry at that index, and the bold entry is the
plain entry ORed with the intensity bit. -/
theorem color_tables_defined (level : Level) (h : level ∈ definedLevels) :
    colors[level]? ≠ none ∧ colors[level]?.getD 0 ≠ 0 ∧
    boldcolors[level]? = some (Nat.lor (colors[level]?.getD 0) fgIntensity) := by
  fin_cases h <;> decide

/-- C4 witness: the table facts at level `ERROR`. -/
theorem color_tables_defined_witness :
    ERROR ∈ definedLevels ∧
    (colors[ERROR]? ≠ none ∧ colors[ERROR]?.getD 0 ≠ 0 ∧
      boldcolors[ERROR]? = some (Nat.lor (colors[ERROR]?.getD 0) fgIntensity)) :=
  ⟨by decide, color_tables_defined ERROR (by decide)⟩

/-- C5 counterexample: the claim says the rendered text is
`format(record, callDepth)` for the caller's own `callDepth`.  At the
concrete call `Log ERROR 0` on a record whose formatter distinguishes depths
0 and 1, the written text is not `Formatted 0`: the source passes
`calldepth + 1` to the formatter. -/
theorem log_formatter_depth_counterexample :
    ¬ ((samplePlainBackend.Log sampleEnv ERROR 0 sampleRecord).map
        (fun out => out.2.1) = some [Event.output 2 (sampleRecord.Formatted 0)]) := by
  decide

/-- C5 amended: in every `Log` call that returns, the text rendered and
written is `Formatted (calldepth + 1)` — the formatter receives the caller's
`calldepth` increased by one for the wrapper's own stack frame — and it is
handed to `Logger.Output` at depth `calldepth + 2`. -/
theorem log_renders_at_depth_plus_one (b : LogBackend) (env : Env) (level : Level)
    (calldepth : Nat) (rec : Record) (out : LogBackend × List Event × Option GoError)
    (h : b.Log env level calldepth rec = some out) :
    out.2.1.filter Event.isOutput =
      [Event.output (calldepth + 2) (rec.Formatted (calldepth + 1))] := by
  unfold LogBackend.Log at h
  split at h
  · split at h
    · exact Option.noConfusion h
    · obtain rfl := (Option.some.inj h).symm
      rfl
  · obtain rfl := (Option.some.inj h).symm
    rfl

/-- C5 amended witness: the rendered-text fact at a concrete call. -/
theorem log_renders_at_depth_plus_one_witness :
    samplePlainBackend.Log sampleEnv ERROR 0 sampleRecord =
      some (samplePlainBackend, [Event.output 2 "b"], none) ∧
    (samplePlainBackend, ([Event.output 2 "b"] : List Event),
        (none : Option GoError)).2.1.filter Event.isOutput =
      [Event.output 2 (sampleRecord.Formatted 1)] :=
  ⟨rfl, log_renders_at_depth_plus_one samplePlainBackend sampleEnv ERROR 0 sampleRecord
    (samplePlainBackend, [Event.output 2 "b"], none) rfl⟩

/-- C6: for a fixed sink, record and call depth, toggling `Color` changes
only the attribute-control calls: the colored and plain calls perform the
same single write (same depth, same text) and return the same result, and
the plain call makes no attribute calls at all. -/
theorem log_color_toggle_same_text (b : LogBackend) (env : Env) (level : Level)
    (calldepth : Nat) (rec : Record) (fd : Nat) (attr : Word)
    (hf : b.f = some fd) (ha : colors[level]? = some attr) :
    (({ b with Color := true } : LogBackend).Log env level calldepth rec).map
        (fun out => (out.2.1.filter Event.isOutput, out.2.2)) =
      (({ b with Color := false } : LogBackend).Log env level calldepth rec).map
        (fun out => (out.2.1.filter Event.isOutput, out.2.2)) ∧
    (({ b with Color := false } : LogBackend).Log env level calldepth rec).map
        (fun out => out.2.1.filter (fun e => !e.isOutput)) = some [] := by
  simp [LogBackend.Log, hf, ha, Event.isOutput]

/-- C6 witness: the toggle fact at a concrete backend and record. -/
theorem log_color_toggle_same_text_witness :
    sampleColorBackend.f = some 3 ∧ colors[WARNING]? = some fgYellow ∧
    ((({ sampleColorBackend with Color := true } : LogBackend).Log sampleEnv WARNING 0
          sampleRecord).map (fun out => (out.2.1.filter Event.isOutput, out.2.2)) =
      (({ sampleColorBackend with Color := false } : LogBackend).Log sampleEnv WARNING 0
          sampleRecord).map (fun out => (out.2.1.filter Event.isOutput, out.2.2)) ∧
    (({ sampleColorBackend with Color := false } : LogBackend).Log sampleEnv WARNING 0
        sampleRecord).map (fun out => out.2.1.filter (fun e => !e.isOutput)) = some []) :=
  ⟨rfl, by decide,
    log_color_toggle_same_text sampleColorBackend sampleEnv WARNING 0 sampleRecord 3
      fgYellow rfl (by decide)⟩

/-- C8: every framework severity level is in bounds for both color tables,
so the `colors[level]` lookup inside `Log` cannot hit the out-of-range panic
branch: `Log` returns a value for every backend, environment, depth and
record at such a level. -/
theorem log_lookup_in_bounds (level : Level) (h : level ∈ definedLevels) :
    level < colors.length ∧ level < boldcolors.length ∧
    ∀ (b : LogBackend) (env : Env) (calldepth : Nat) (rec : Record),
      (b.Log env level calldepth rec).isSome := by
  have hlt : level < colors.length := by fin_cases h <;> decide
  refine ⟨hlt, by fin_cases h <;> decide, ?_⟩
  intro b env calldepth rec
  obtain ⟨lg, c, f⟩ := b
  obtain ⟨attr, ha⟩ : ∃ attr, colors[level]? = some attr :=
    ⟨colors.get ⟨level, hlt⟩, List.getElem?_eq_getElem hlt⟩
  cases c <;> cases f <;> simp [LogBackend.Log, ha]

/-- C8 witness: in-bounds lookup and panic-freedom at level `CRITICAL` on a
concrete colored backend. -/
theorem log_lookup_in_bounds_witness :
    CRITICAL ∈ definedLevels ∧ CRITICAL < colors.length ∧
    (sampleColorBackend.Log sampleEnv CRITICAL 0 sampleRecord).isSome :=
  ⟨by decide, (log_lookup_in_bounds CRITICAL (by decide)).1,
    (log_lookup_in_bounds CRITICAL (by decide)).2.2 sampleColorBackend sampleEnv 0
      sampleRecord⟩

/-- C9: `checkError` returns `nil` exactly when the platform call reported
success (`r1 ≠ 0`); on failure with no platform error it returns
`syscall.EINVAL`, so `setConsoleTextAttribute` never returns `nil` for a
failed call. -/
theorem checkError_success_iff (r1 r2 : Nat) (err : Option GoError) :
    (checkError r1 r2 err = none ↔ r1 ≠ 0) ∧
    (r1 = 0 → err = none → checkError r1 r2 err = some GoError.EINVAL) ∧
    (r1 = 0 → setConsoleTextAttribute ⟨r1, r2, err⟩ ≠ none) := by
  unfold setConsoleTextAttribute checkError
  by_cases h : r1 = 0 <;> cases err <;> simp [h]

/-- C9 witness: the `checkError` facts at a failed call with no platform
error. -/
theorem checkError_success_iff_witness :
    (checkError 0 0 none = none ↔ (0 : Nat) ≠ 0) ∧
    checkError 0 0 none = some GoError.EINVAL ∧
    setConsoleTextAttribute ⟨0, 0, none⟩ ≠ none :=
  ⟨(checkError_success_iff 0 0 none).1,
    (checkError_success_iff 0 0 none).2.1 rfl rfl,
    (checkError_success_iff 0 0 none).2.2 rfl⟩

end Logging
